import Mathlib

/-
Shallow embedding of the UniFi Protect timeshift buffer
(src/protect-timeshift.ts, class ProtectTimeshiftBuffer).

Modelling conventions:
- A media segment (a Node Buffer) is a byte list, List Nat; Buffer.concat is List.flatten.
- JavaScript numbers are IEEE-754 binary64 doubles. Where the class only ever holds
  validated integers well inside the 53-bit exact range (segmentLength, millisecond
  durations, list lengths) the embedding uses naturals, exactly as binary64 behaves
  there. bufferSize can be fractional: it is held as the exact rational value of the
  double, and the two operations that produce it or read it back — the length
  setter's division and the length getter's multiplication — round their result to
  binary64 through roundDouble, as double arithmetic does. Comparisons of doubles
  are exact, so the rational comparisons in the segment handler are faithful.
- The external livestream handle (ProtectLivestream) is abstracted to an identity,
  a natural number; livestream is none when the handle is null. The property
  livestream?.initSegment is modelled by the field initSegment, none when the
  handle is null or the artifact has not been seen yet.
- Event listener wiring is modelled explicitly: segListeners lists, with
  multiplicity, the handles on which the single fixed segment handler closure
  (eventHandlers.segment, created once in the constructor) is attached;
  closeListeners lists (handle, generation) instances, since every call to
  configureTimeshiftBuffer stores a fresh close closure into eventHandlers.close,
  identified here by the generation counter closeGen (0 meaning never assigned).
- Async external calls (livestream acquire and start, the bounded wait for the
  initialization segment, resetNvrConnection) are oracles: their results are
  parameters of the embedded operations, and the operations report externally
  observable effects (emitted segment events, whether resetNvrConnection was
  invoked) in their results.
-/

structure ProtectTimeshiftBuffer where
  buffer : List (List Nat)
  bufferSize : ℚ
  isStarted : Bool
  isTransmitting : Bool
  segmentLength : ℕ
  channel : ℕ
  initSegment : Option (List Nat)
  livestream : Option ℕ
  segListeners : List ℕ
  closeListeners : List (ℕ × ℕ)
  closeGen : ℕ
deriving DecidableEq

/-- Modelled from the spec: PROTECT_HKSV_SEGMENT_RESOLUTION lives in settings.ts,
which is not part of the analyzed source; it is the default per-segment duration in
milliseconds and the spec examples use 100 ms segments. -/
def PROTECT_HKSV_SEGMENT_RESOLUTION : ℕ := 100

/-- The constructor state: empty store, bufferSize 1, not started, not
transmitting, default segment resolution, channel 0, no livestream handle, no
listeners wired. -/
def initialState : ProtectTimeshiftBuffer :=
  { buffer := [], bufferSize := 1, isStarted := false, isTransmitting := false,
    segmentLength := PROTECT_HKSV_SEGMENT_RESOLUTION, channel := 0, initSegment := none,
    livestream := none, segListeners := [], closeListeners := [], closeGen := 0 }

/-- transmit(): emit one segment event carrying Buffer.concat of the entire store,
then clear the store. -/
def transmit (s : ProtectTimeshiftBuffer) : ProtectTimeshiftBuffer × List (List Nat) :=
  ({ s with buffer := [] }, [s.buffer.flatten])

/-- The segment event handler installed in the constructor (eventHandlers.segment):
push the arriving segment to the back, clamp bufferSize up to 1 when it is not
positive, remove one segment from the front when not transmitting and the store
length exceeds bufferSize, and drain through transmit when transmitting. Returns
the updated state and the emitted events. -/
def onSegment (s : ProtectTimeshiftBuffer) (seg : List Nat) :
    ProtectTimeshiftBuffer × List (List Nat) :=
  let buf := s.buffer ++ [seg]
  let bs : ℚ := if s.bufferSize ≤ 0 then 1 else s.bufferSize
  let buf2 := if s.isTransmitting = false ∧ bs < (buf.length : ℚ) then buf.drop 1 else buf
  if s.isTransmitting = true then transmit { s with buffer := buf2, bufferSize := bs }
  else ({ s with buffer := buf2, bufferSize := bs }, [])

/-- configureTimeshiftBuffer(): attach a freshly created close closure (a new
generation, also stored as the current eventHandlers.close) and the fixed segment
handler to the current livestream handle; with a null handle the optional-chained
calls, the close-closure assignment included, do nothing. -/
def configureTimeshiftBuffer (s : ProtectTimeshiftBuffer) : ProtectTimeshiftBuffer :=
  match s.livestream with
  | none => s
  | some h =>
    let g := s.closeGen + 1
    { s with closeGen := g,
             closeListeners := s.closeListeners ++ [(h, g)],
             segListeners := s.segListeners ++ [h] }

/-- The listener removal in stop(): for every key of eventHandlers, call off with
the stored handler on the current livestream handle. The segment key always exists
and off removes one attached instance; the close key exists once
configureTimeshiftBuffer has run (closeGen is then positive) and off removes one
attached instance of the currently stored closure, identified by its generation. -/
def detachListeners (s : ProtectTimeshiftBuffer) : ProtectTimeshiftBuffer :=
  match s.livestream with
  | none => s
  | some h =>
    { s with segListeners := s.segListeners.erase h,
             closeListeners :=
               if s.closeGen = 0 then s.closeListeners
               else s.closeListeners.erase (h, s.closeGen) }

/-- stop(): when started, stop the external livestream and detach the stored
listeners from the current handle; in every case clear the store, mark not started
and return true. -/
def stop (s : ProtectTimeshiftBuffer) : ProtectTimeshiftBuffer × Bool :=
  let s1 := if s.isStarted = true then detachListeners s else s
  ({ s1 with buffer := [], isStarted := false }, true)

/-- start(channelId): the oracles are acquireResult, the handle returned by
protectCamera.livestream.acquire (none for null), and startOK, the boolean result
of the awaited external livestream start. Stops first when already started, clears
the store, records the acquired handle, fails when acquisition yields null, wires
the listeners, and only when the external start succeeds records the channel and
sets isStarted. The lens argument and the segment-length re-validation against an
available HKSV recording configuration are not modelled: the claims under
verification fix a lens-free configuration in which that validation leaves
segmentLength unchanged. -/
def start (s : ProtectTimeshiftBuffer) (channelId : ℕ) (acquireResult : Option ℕ)
    (startOK : Bool) : ProtectTimeshiftBuffer × Bool :=
  let s1 := if s.isStarted = true then (stop s).1 else s
  let s2 := { s1 with buffer := [], livestream := acquireResult }
  match acquireResult with
  | none => (s2, false)
  | some _ =>
    let s3 := configureTimeshiftBuffer s2
    if startOK = true then ({ s3 with channel := channelId, isStarted := true }, true)
    else (s3, false)

/-- transmitStop(): unconditionally clear the transmitting flag and return true. -/
def transmitStop (s : ProtectTimeshiftBuffer) : ProtectTimeshiftBuffer × Bool :=
  ({ s with isTransmitting := false }, true)

/-- getInitSegment(): return the initialization segment when the livestream already
exposes it; otherwise wait a bounded time and return whatever the source exposes
after the wait (the oracle initAfterWait), possibly still none. -/
def getInitSegment (s : ProtectTimeshiftBuffer) (initAfterWait : Option (List Nat)) :
    Option (List Nat) :=
  match s.initSegment with
  | some i => some i
  | none => initAfterWait

/-- The tail of transmitStart() once the session is known to be started: resolve
the initialization segment; when it is unavailable report failure and that
resetNvrConnection was invoked; otherwise unshift the artifact onto the store,
drain through transmit and set the transmitting flag. The result is
(state, returned boolean, emitted events, resetNvrConnection invoked). -/
def transmitStartResolved (s : ProtectTimeshiftBuffer) (initAfterWait : Option (List Nat)) :
    ProtectTimeshiftBuffer × Bool × List (List Nat) × Bool :=
  match getInitSegment s initAfterWait with
  | none => (s, false, [], true)
  | some i =>
    let s1 := { s with buffer := i :: s.buffer }
    let p := transmit s1
    ({ p.1 with isTransmitting := true }, true, p.2, false)

/-- transmitStart(): when not started, first start with the recorded channel
(oracles acquireResult and startOK); a failed start reports failure and invokes
resetNvrConnection. Otherwise resolve the initialization segment and transmit. -/
def transmitStart (s : ProtectTimeshiftBuffer) (acquireResult : Option ℕ) (startOK : Bool)
    (initAfterWait : Option (List Nat)) :
    ProtectTimeshiftBuffer × Bool × List (List Nat) × Bool :=
  if s.isStarted = false then
    let p := start s s.channel acquireResult startOK
    if p.2 = true then transmitStartResolved p.1 initAfterWait
    else (p.1, false, [], true)
  else transmitStartResolved s initAfterWait

/-- The buffer getter: the initialization segment concatenated with the whole
store, or none when the artifact is unknown or the store is empty. -/
def getBuffer (s : ProtectTimeshiftBuffer) : Option (List Nat) :=
  match s.initSegment with
  | none => none
  | some i => if s.buffer.isEmpty = true then none else some ((i :: s.buffer).flatten)

/-- getLast(duration): the source computes start = duration / segmentLength with
real division and returns the buffer getter when start is at least the store
length, encoded here for the positive segmentLength the class maintains as
buffer.length * segmentLength ≤ duration; otherwise it returns the initialization
segment concatenated with buffer.slice(start), whose index truncates to natural
division duration / segmentLength, or none when the artifact is unknown or the
store is empty. -/
def getLast (s : ProtectTimeshiftBuffer) (duration : ℕ) : Option (List Nat) :=
  if s.buffer.length * s.segmentLength ≤ duration then getBuffer s
  else
    match s.initSegment with
    | none => none
    | some i =>
      if s.buffer.isEmpty = true then none
      else some ((i :: s.buffer.drop (duration / s.segmentLength)).flatten)

/-- Round a rational to the nearest integer, ties to the even integer: the tie
rule of IEEE-754 round-to-nearest-even once a value has been scaled into integer
significand units. -/
def roundHalfEven (y : ℚ) : ℤ :=
  if y - ⌊y⌋ < 1 / 2 then ⌊y⌋
  else if 1 / 2 < y - ⌊y⌋ then ⌊y⌋ + 1
  else if ⌊y⌋ % 2 = 0 then ⌊y⌋ else ⌊y⌋ + 1

/-- IEEE-754 binary64 rounding of an exact rational value, round to nearest with
ties to even: a finite double carries a 53-bit significand, so a value with binary
exponent e (the Int.log base 2 of its magnitude) is rounded to the nearest multiple
of the quantum 2 ^ (e - 52), the quantum floored at 2 ^ (-1074) for subnormals.
Every representable double is a fixed point, so applying this to the exact result
of each arithmetic operation models binary64 arithmetic. Overflow to infinity
(magnitudes around 2 ^ 1024) is not modelled; nothing in this development comes
near it. -/
def roundDouble (x : ℚ) : ℚ :=
  if x = 0 then 0
  else
    (if x < 0 then (-1 : ℚ) else 1) *
      (roundHalfEven (|x| * (2 : ℚ) ^ (-(max (Int.log 2 |x| - 52) (-1074)))) : ℚ) *
      (2 : ℚ) ^ (max (Int.log 2 |x| - 52) (-1074))

/-- The length getter: bufferSize * segmentLength milliseconds, the product rounded
to binary64 as the source's double multiplication is. -/
def getLength (s : ProtectTimeshiftBuffer) : ℚ :=
  roundDouble (s.bufferSize * (s.segmentLength : ℚ))

/-- The length setter: bufferSize becomes bufferMillis / segmentLength, with no
flooring; the quotient is rounded to binary64 as the source's double division is. -/
def setLength (s : ProtectTimeshiftBuffer) (bufferMillis : ℚ) : ProtectTimeshiftBuffer :=
  { s with bufferSize := roundDouble (bufferMillis / (s.segmentLength : ℚ)) }

/-- Deliver a sequence of segments to the handler, one event per list entry,
keeping only the state. -/
def runSegments (s : ProtectTimeshiftBuffer) (segs : List (List Nat)) :
    ProtectTimeshiftBuffer :=
  segs.foldl (fun st seg => (onSegment st seg).1) s

/-- Run the segment handler n times for one arriving segment, collecting the
emissions: an event source invokes every attached listener instance in order. -/
def runHandlers : ℕ → ProtectTimeshiftBuffer → List Nat →
    ProtectTimeshiftBuffer × List (List Nat)
  | 0, s, _ => (s, [])
  | n + 1, s, seg =>
    let p := onSegment s seg
    let q := runHandlers n p.1 seg
    (q.1, p.2 ++ q.2)

/-- One external segment event on handle h: the fixed handler closure runs once per
instance of the segment listener attached to h. -/
def deliverSegment (s : ProtectTimeshiftBuffer) (h : ℕ) (seg : List Nat) :
    ProtectTimeshiftBuffer × List (List Nat) :=
  runHandlers (s.segListeners.count h) s seg

/-- The spec example store for claim C1: segments S3..S7 as singleton byte blocks
after seven arrivals with capacity five, a 100 ms segment duration and a known
initialization artifact. -/
def stateC1 : ProtectTimeshiftBuffer :=
  { initialState with buffer := [[3], [4], [5], [6], [7]], initSegment := some [0] }

/-- The claim C2 witness state: the constructor state with an integer retention
capacity of two segments. -/
def stateC2 : ProtectTimeshiftBuffer :=
  { initialState with bufferSize := ((2 : ℕ) : ℚ) }

/-- The claim C3 failing state: a requested buffer length of 50 ms against 100 ms
segments, stored without flooring as bufferSize 1/2. -/
def stateC3 : ProtectTimeshiftBuffer :=
  setLength initialState 50

/-- The claim C5 witness state: transmitting with one unflushed segment stored. -/
def stateC5 : ProtectTimeshiftBuffer :=
  { initialState with isTransmitting := true, buffer := [[1]] }

/-- The claim C6 witness state: a started session whose source has not exposed the
initialization artifact. -/
def stateC6 : ProtectTimeshiftBuffer :=
  { initialState with isStarted := true }

/-- Claim C8 trace, first step: a start in which acquisition yields handle 0 but
the external livestream start fails, leaving the wired listeners behind. -/
def stateC8a : ProtectTimeshiftBuffer := (start initialState 0 (some 0) false).1

/-- Claim C8 trace, second step: stop while not started, which detaches nothing. -/
def stateC8b : ProtectTimeshiftBuffer := (stop stateC8a).1

/-- Claim C8 trace, third step: a successful start in which acquisition returns
the same external handle 0 again. -/
def stateC8c : ProtectTimeshiftBuffer := (start stateC8b 0 (some 0) true).1

/-- Claim C8 trace, fourth step: a requested buffer length of two segments. -/
def stateC8d : ProtectTimeshiftBuffer := setLength stateC8c 200

/-- Claim C1 (refuted by the code): with the spec example store S3..S7, a 100 ms
segment duration and a known initialization artifact, getLast 250 returns the
artifact followed by the last three segments S5, S6 and S7 — the source slices the
store from index floor(duration / segmentLength) instead of taking that many
segments from the end — and not the artifact followed by the last two segments S6
and S7 that the claim and the doc comment of getLast describe. -/
theorem getLast_slices_from_front :
    getLast stateC1 250 = some [0, 5, 6, 7] ∧ getLast stateC1 250 ≠ some [0, 6, 7] := by
  decide

/-- The binary exponent of a positive rational is e when 2 ^ e bounds it from
below and 2 ^ (e + 1) strictly from above. -/
lemma int_log_pin (x : ℚ) (e : ℤ) (hx : 0 < x) (h1 : (2 : ℚ) ^ e ≤ x)
    (h2 : x < (2 : ℚ) ^ (e + 1)) : Int.log 2 x = e := by
  have ha := (@Int.zpow_le_iff_le_log ℚ _ _ 2 (by norm_num) e x hx).mp (by exact_mod_cast h1)
  have hb := (@Int.lt_zpow_iff_log_lt ℚ _ _ 2 (by norm_num) (e + 1) x hx).mp (by exact_mod_cast h2)
  omega

/-- Evaluation of binary64 rounding at a positive value: when 2 ^ e ≤ x < 2 ^ (e+1)
and the quantum exponent q = e - 52 is at or above the subnormal floor, the result
is the half-even rounding of x scaled by 2 ^ p, p = 52 - e, times the quantum. -/
lemma roundDouble_pos_eval (x : ℚ) (e p q n : ℤ) (hx : 0 < x)
    (h1 : (2 : ℚ) ^ e ≤ x) (h2 : x < (2 : ℚ) ^ (e + 1))
    (hp : p = 52 - e) (hq : q = e - 52) (hlow : (-1074 : ℤ) ≤ q)
    (hn : roundHalfEven (x * (2 : ℚ) ^ p) = n) :
    roundDouble x = (n : ℚ) * (2 : ℚ) ^ q := by
  subst hp hq
  unfold roundDouble
  rw [if_neg (ne_of_gt hx), if_neg (not_lt.mpr (le_of_lt hx)), abs_of_pos hx,
    int_log_pin x e hx h1 h2, max_eq_left hlow,
    show -(e - 52) = 52 - e by ring, hn]
  ring

/-- A value with a 53-bit significand and a quantum at or above the subnormal
floor is a representable binary64 double, and binary64 rounding fixes it. -/
lemma roundDouble_eq_self (k : ℕ) (q : ℤ) (hk1 : 2 ^ 52 ≤ k) (hk2 : k < 2 ^ 53)
    (hq : (-1074 : ℤ) ≤ q) :
    roundDouble ((k : ℚ) * (2 : ℚ) ^ q) = (k : ℚ) * (2 : ℚ) ^ q := by
  have hkpos : 0 < (k : ℚ) := by
    have hk : (0 : ℕ) < k := lt_of_lt_of_le (by norm_num) hk1
    exact_mod_cast hk
  have hx : 0 < (k : ℚ) * (2 : ℚ) ^ q := mul_pos hkpos (by positivity)
  have h1 : (2 : ℚ) ^ (52 + q) ≤ (k : ℚ) * (2 : ℚ) ^ q := by
    rw [zpow_add₀ (by norm_num : (2 : ℚ) ≠ 0)]
    have h52 : (2 : ℚ) ^ (52 : ℤ) ≤ (k : ℚ) := by
      rw [show ((2 : ℚ) ^ (52 : ℤ)) = ((2 ^ 52 : ℕ) : ℚ) by push_cast; norm_num]
      exact_mod_cast hk1
    exact mul_le_mul_of_nonneg_right h52 (by positivity)
  have h2 : (k : ℚ) * (2 : ℚ) ^ q < (2 : ℚ) ^ (52 + q + 1) := by
    rw [show (52 + q + 1 : ℤ) = 53 + q by ring, zpow_add₀ (by norm_num : (2 : ℚ) ≠ 0)]
    have h53 : (k : ℚ) < (2 : ℚ) ^ (53 : ℤ) := by
      rw [show ((2 : ℚ) ^ (53 : ℤ)) = ((2 ^ 53 : ℕ) : ℚ) by push_cast; norm_num]
      exact_mod_cast hk2
    exact mul_lt_mul_of_pos_right h53 (by positivity)
  have hn : roundHalfEven ((k : ℚ) * (2 : ℚ) ^ q * (2 : ℚ) ^ (52 - (52 + q))) = (k : ℤ) := by
    rw [show (52 - (52 + q) : ℤ) = -q by ring, mul_assoc,
      ← zpow_add₀ (by norm_num : (2 : ℚ) ≠ 0), show (q + -q : ℤ) = 0 by ring, zpow_zero,
      mul_one]
    unfold roundHalfEven
    rw [Int.floor_natCast]
    norm_num
  have h := roundDouble_pos_eval ((k : ℚ) * (2 : ℚ) ^ q) (52 + q) (52 - (52 + q))
    (52 + q - 52) (k : ℤ) hx h1 h2 (by ring) (by ring) (by omega) hn
  rw [h, show (52 + q - 52 : ℤ) = q by ring]
  norm_cast

/-- Claim C3 (refuted by the code): a requested buffer length of 50 ms with 100 ms
segments stores bufferSize = 1/2 (0.5 is exactly representable, so the binary64
quotient is exact), which the handler clamp (testing bufferSize ≤ 0) does not raise
to 1, so a segment arriving while buffering is pushed and immediately evicted and
the store is left empty, against the requirement that at least one segment is
always retained. -/
theorem fractional_capacity_empties_store :
    stateC3.bufferSize = 1 / 2 ∧ stateC3.isTransmitting = false ∧
    (onSegment stateC3 [9]).1.buffer = [] := by
  have hhalf : roundDouble ((50 : ℚ) / 100) = 1 / 2 := by
    rw [show (50 : ℚ) / 100 = ((4503599627370496 : ℕ) : ℚ) * (2 : ℚ) ^ (-53 : ℤ) by norm_num]
    rw [roundDouble_eq_self 4503599627370496 (-53) (by norm_num) (by norm_num) (by norm_num)]
    norm_num
  have hstate : stateC3 = { initialState with bufferSize := 1 / 2 } := by
    show ({ initialState with
        bufferSize := roundDouble ((50 : ℚ) / (initialState.segmentLength : ℚ)) } :
      ProtectTimeshiftBuffer) = _
    rw [show ((initialState.segmentLength : ℕ) : ℚ) = 100 from by
      rw [show initialState.segmentLength = 100 from rfl]; norm_num]
    rw [hhalf]
  rw [hstate]
  refine ⟨rfl, rfl, ?_⟩
  norm_num [onSegment, transmit, initialState, PROTECT_HKSV_SEGMENT_RESOLUTION]

/-- Claim C4 (refuted by the code): from the constructor state, an invocation of
start in which acquisition succeeds with handle 0 but the external livestream
start fails returns false yet leaves both the segment listener and the close
listener attached to the acquired handle. -/
theorem failed_start_leaves_listeners :
    (start initialState 0 (some 0) false).2 = false ∧
    (start initialState 0 (some 0) false).1.segListeners = [0] ∧
    (start initialState 0 (some 0) false).1.closeListeners = [(0, 1)] := by
  decide

/-- Claim C8 (refuted by the code): after a start whose external livestream start
fails — listeners stay wired while isStarted stays false — a stop, which detaches
nothing because the session is not started, followed by a successful start on the
same external handle leaves two instances of the segment listener attached, and a
single segment arrival is then appended to the store twice. -/
theorem stop_start_duplicates_listener :
    (start stateC8b 0 (some 0) true).2 = true ∧
    stateC8c.segListeners = [0, 0] ∧
    (deliverSegment stateC8d 0 [7]).1.buffer = [[7], [7]] := by
  have htwo : roundDouble ((200 : ℚ) / 100) = 2 := by
    rw [show (200 : ℚ) / 100 = ((4503599627370496 : ℕ) : ℚ) * (2 : ℚ) ^ (-51 : ℤ) by norm_num]
    rw [roundDouble_eq_self 4503599627370496 (-51) (by norm_num) (by norm_num) (by norm_num)]
    norm_num
  have hstate : stateC8d = { stateC8c with bufferSize := 2 } := by
    show ({ stateC8c with
        bufferSize := roundDouble ((200 : ℚ) / (stateC8c.segmentLength : ℚ)) } :
      ProtectTimeshiftBuffer) = _
    rw [show ((stateC8c.segmentLength : ℕ) : ℚ) = 100 from by
      rw [show stateC8c.segmentLength = 100 from rfl]; norm_num]
    rw [htwo]
  refine ⟨rfl, rfl, ?_⟩
  rw [hstate]
  norm_num [deliverSegment, runHandlers, onSegment, transmit, stateC8c, stateC8b,
    stateC8a, start, stop, detachListeners, configureTimeshiftBuffer, initialState,
    PROTECT_HKSV_SEGMENT_RESOLUTION, List.count_cons]

/-- Claim C9: in every state, stop returns true and leaves the store empty and the
started flag false, also when invoked while not started. -/
theorem stop_resets (s : ProtectTimeshiftBuffer) :
    (stop s).2 = true ∧ (stop s).1.buffer = [] ∧ (stop s).1.isStarted = false :=
  ⟨rfl, rfl, rfl⟩

/-- Claim C10 counterexample: setting the buffer length to 7 ms with 100 ms
segments reads back 7 + 2 ^ (-50), displayed as 7.000000000000001 — not 7. The
binary64 division rounds 7/100 up to the nearest double and the multiplication
back rounds again, so the set-then-get round trip is not the identity for every
duration, refuting the claim as stated. -/
theorem length_roundtrip_not_exact :
    getLength (setLength initialState 7) = 7 + (2 : ℚ) ^ (-50 : ℤ) ∧
    getLength (setLength initialState 7) ≠ 7 := by
  have hstep1 : roundDouble ((7 : ℚ) / 100) =
      ((5044031582654956 : ℤ) : ℚ) * (2 : ℚ) ^ (-56 : ℤ) := by
    have hf : ⌊(7 : ℚ) / 100 * (2 : ℚ) ^ (56 : ℤ)⌋ = 5044031582654955 := by
      rw [Int.floor_eq_iff]
      constructor <;> norm_num
    have hn : roundHalfEven ((7 : ℚ) / 100 * (2 : ℚ) ^ (56 : ℤ)) = 5044031582654956 := by
      unfold roundHalfEven
      rw [hf]
      norm_num
    exact roundDouble_pos_eval ((7 : ℚ) / 100) (-4) 56 (-56) 5044031582654956 (by norm_num)
      (by norm_num) (by norm_num) (by norm_num) (by norm_num) (by norm_num) hn
  have hstep2 : roundDouble (((5044031582654956 : ℤ) : ℚ) * (2 : ℚ) ^ (-56 : ℤ) * 100) =
      ((7881299347898369 : ℤ) : ℚ) * (2 : ℚ) ^ (-50 : ℤ) := by
    have hf : ⌊((5044031582654956 : ℤ) : ℚ) * (2 : ℚ) ^ (-56 : ℤ) * 100 *
        (2 : ℚ) ^ (50 : ℤ)⌋ = 7881299347898368 := by
      rw [Int.floor_eq_iff]
      constructor <;> norm_num
    have hn : roundHalfEven (((5044031582654956 : ℤ) : ℚ) * (2 : ℚ) ^ (-56 : ℤ) * 100 *
        (2 : ℚ) ^ (50 : ℤ)) = 7881299347898369 := by
      unfold roundHalfEven
      rw [hf]
      norm_num
    exact roundDouble_pos_eval (((5044031582654956 : ℤ) : ℚ) * (2 : ℚ) ^ (-56 : ℤ) * 100)
      2 50 (-50) 7881299347898369 (by norm_num) (by norm_num) (by norm_num) (by norm_num)
      (by norm_num) (by norm_num) hn
  have hval : getLength (setLength initialState 7) =
      ((7881299347898369 : ℤ) : ℚ) * (2 : ℚ) ^ (-50 : ℤ) := by
    show roundDouble (roundDouble ((7 : ℚ) / (initialState.segmentLength : ℚ)) *
      (initialState.segmentLength : ℚ)) = _
    rw [show ((initialState.segmentLength : ℕ) : ℚ) = 100 from by
      rw [show initialState.segmentLength = 100 from rfl]; norm_num]
    rw [hstep1, hstep2]
  constructor
  · rw [hval]
    norm_num
  · rw [hval]
    norm_num

/-- Claim C10 as amended: the setter stores the unfloored binary64 quotient
m / segmentLength — no flooring occurs at set time — and the set-then-get round
trip returns exactly m whenever m and m / segmentLength are themselves exactly
representable binary64 doubles (fixed points of binary64 rounding), as in every
configuration the spec exercises; it is not the identity for every m. -/
theorem length_set_get_roundtrip_representable (s : ProtectTimeshiftBuffer) (m : ℚ)
    (h : s.segmentLength ≠ 0)
    (h1 : roundDouble (m / (s.segmentLength : ℚ)) = m / (s.segmentLength : ℚ))
    (h2 : roundDouble m = m) :
    getLength (setLength s m) = m := by
  have hq : ((s.segmentLength : ℕ) : ℚ) ≠ 0 := Nat.cast_ne_zero.mpr h
  show roundDouble (roundDouble (m / (s.segmentLength : ℚ)) * (s.segmentLength : ℚ)) = m
  rw [h1, div_mul_cancel₀ m hq, h2]

/-- Claim C10 amended witness: the round trip at the constructor state and 250 ms,
where both 250 and 250/100 = 2.5 are exactly representable doubles. -/
theorem length_set_get_roundtrip_representable_witness :
    initialState.segmentLength ≠ 0 ∧
    roundDouble ((250 : ℚ) / (initialState.segmentLength : ℚ)) =
      (250 : ℚ) / (initialState.segmentLength : ℚ) ∧
    roundDouble (250 : ℚ) = 250 ∧
    getLength (setLength initialState 250) = 250 := by
  have hcast : ((initialState.segmentLength : ℕ) : ℚ) = 100 := by
    rw [show initialState.segmentLength = 100 from rfl]
    norm_num
  have h1 : roundDouble ((250 : ℚ) / (initialState.segmentLength : ℚ)) =
      (250 : ℚ) / (initialState.segmentLength : ℚ) := by
    rw [hcast]
    rw [show (250 : ℚ) / 100 = ((5629499534213120 : ℕ) : ℚ) * (2 : ℚ) ^ (-51 : ℤ) by norm_num]
    exact roundDouble_eq_self 5629499534213120 (-51) (by norm_num) (by norm_num) (by norm_num)
  have h2 : roundDouble (250 : ℚ) = 250 := by
    rw [show (250 : ℚ) = ((8796093022208000 : ℕ) : ℚ) * (2 : ℚ) ^ (-45 : ℤ) by norm_num]
    exact roundDouble_eq_self 8796093022208000 (-45) (by norm_num) (by norm_num) (by norm_num)
  exact ⟨by decide, h1, h2,
    length_set_get_roundtrip_representable initialState 250 (by decide) h1 h2⟩

/-- Claim C5: while transmitting, a segment arrival drains the store: afterwards
the store is empty and exactly one event fired carrying the concatenation of
everything present at arrival time, the newly arrived segment included, with no
eviction. -/
theorem transmitting_arrival_drains (s : ProtectTimeshiftBuffer) (seg : List Nat)
    (ht : s.isTransmitting = true) :
    (onSegment s seg).1.buffer = [] ∧
    (onSegment s seg).2 = [(s.buffer ++ [seg]).flatten] := by
  unfold onSegment transmit
  simp [ht]

/-- Claim C5 witness: the drain at a transmitting state holding one unflushed
segment. -/
theorem transmitting_arrival_drains_witness :
    stateC5.isTransmitting = true ∧
    ((onSegment stateC5 [2]).1.buffer = [] ∧
      (onSegment stateC5 [2]).2 = [(stateC5.buffer ++ [[2]]).flatten]) :=
  ⟨rfl, transmitting_arrival_drains stateC5 [2] rfl⟩

/-- Claim C6: a transmitStart on a started session whose initialization artifact
is still unavailable after the bounded wait changes nothing, returns false — in
particular the transmitting flag is never set — and invokes the external
connection-reset recovery. -/
theorem transmitStart_no_artifact (s : ProtectTimeshiftBuffer) (a : Option ℕ) (ok : Bool)
    (hs : s.isStarted = true) (hi : s.initSegment = none) :
    transmitStart s a ok none = (s, false, [], true) := by
  unfold transmitStart
  simp [hs, transmitStartResolved, getInitSegment, hi]

/-- Claim C6 witness: transmitStart at a started artifact-free state. -/
theorem transmitStart_no_artifact_witness :
    stateC6.isStarted = true ∧ stateC6.initSegment = none ∧
    transmitStart stateC6 none false none = (stateC6, false, [], true) :=
  ⟨rfl, rfl, transmitStart_no_artifact stateC6 none false rfl rfl⟩

/-- Claim C7: getLast and the buffer getter yield a value exactly when the
initialization artifact is known and the store is non-empty, and null otherwise,
the artifact-unknown case included even for a non-empty store. -/
theorem reads_some_iff (s : ProtectTimeshiftBuffer) (d : ℕ) :
    (getLast s d).isSome = (s.initSegment.isSome && !s.buffer.isEmpty) ∧
    (getBuffer s).isSome = (s.initSegment.isSome && !s.buffer.isEmpty) := by
  have hg : (getBuffer s).isSome = (s.initSegment.isSome && !s.buffer.isEmpty) := by
    unfold getBuffer
    rcases hi : s.initSegment with _ | i
    · simp
    · rcases hb : s.buffer with _ | ⟨x, xs⟩ <;> simp
  refine ⟨?_, hg⟩
  unfold getLast getBuffer
  rcases hi : s.initSegment with _ | i <;> rcases hb : s.buffer with _ | ⟨x, xs⟩ <;>
    simp only [hi, hb] <;> split_ifs <;> simp_all

/-- One buffering step of the segment handler at an integer capacity C ≥ 1: the
clamp leaves bufferSize alone, the store gains the arrival at the back and loses
its front element exactly when it held C segments already, and the mode fields are
unchanged. -/
lemma onSegment_buffering (s : ProtectTimeshiftBuffer) (a : List Nat) (C : ℕ) (hC : 1 ≤ C)
    (hbs : s.bufferSize = (C : ℚ)) (ht : s.isTransmitting = false) :
    (onSegment s a).1.buffer =
      (if C < s.buffer.length + 1 then (s.buffer ++ [a]).drop 1 else s.buffer ++ [a]) ∧
    (onSegment s a).1.bufferSize = (C : ℚ) ∧ (onSegment s a).1.isTransmitting = false := by
  have h0 : ¬ ((C : ℚ) ≤ 0) := not_le.mpr (by exact_mod_cast hC)
  have hiff : ((C : ℚ) < ((s.buffer ++ [a]).length : ℚ)) ↔ C < s.buffer.length + 1 := by
    rw [Nat.cast_lt, List.length_append, List.length_singleton]
  unfold onSegment
  simp only [ht, hbs, if_neg h0]
  by_cases hcap : C < s.buffer.length + 1
  · simp [hiff, hcap, ht, hbs]
    intro h
    exfalso
    have hle : s.buffer.length + 1 ≤ C := by exact_mod_cast h
    omega
  · simp [hiff, hcap, ht, hbs]
    intro h
    exfalso
    have hlt : C < s.buffer.length + 1 := by exact_mod_cast h
    omega

/-- Running the handler while buffering at an integer capacity C ≥ 1 from any
store of at most C segments leaves the last C entries of the store followed by the
arrivals, in order. -/
lemma runSegments_spec (C : ℕ) (hC : 1 ≤ C) :
    ∀ (segs : List (List Nat)) (s : ProtectTimeshiftBuffer),
      s.bufferSize = (C : ℚ) → s.isTransmitting = false → s.buffer.length ≤ C →
      (runSegments s segs).buffer = (s.buffer ++ segs).drop ((s.buffer ++ segs).length - C) := by
  intro segs
  induction segs with
  | nil =>
    intro s hbs ht hlen
    simp [runSegments, Nat.sub_eq_zero_of_le hlen]
  | cons a rest ih =>
    intro s hbs ht hlen
    obtain ⟨hb, hbs2, ht2⟩ := onSegment_buffering s a C hC hbs ht
    have hstep : runSegments s (a :: rest) = runSegments (onSegment s a).1 rest := rfl
    rw [hstep]
    by_cases hcap : C < s.buffer.length + 1
    · have hlen1 : s.buffer.length = C := by omega
      have hb2 : (onSegment s a).1.buffer = (s.buffer ++ [a]).drop 1 := by
        rw [hb, if_pos hcap]
      have hlen2 : (onSegment s a).1.buffer.length ≤ C := by
        rw [hb2]
        simp
        omega
      rw [ih ((onSegment s a).1) hbs2 ht2 hlen2, hb2]
      have hsplit : ((s.buffer ++ [a]).drop 1) ++ rest = ((s.buffer ++ [a]) ++ rest).drop 1 :=
        (List.drop_append_of_le_length (by simp)).symm
      rw [hsplit, List.drop_drop]
      have hassoc : (s.buffer ++ [a]) ++ rest = s.buffer ++ a :: rest := by simp
      rw [hassoc]
      congr 1
      simp only [List.length_drop, List.length_append, List.length_cons]
      omega
    · have hb2 : (onSegment s a).1.buffer = s.buffer ++ [a] := by rw [hb, if_neg hcap]
      have hlen2 : (onSegment s a).1.buffer.length ≤ C := by
        rw [hb2]
        simp
        omega
      rw [ih ((onSegment s a).1) hbs2 ht2 hlen2, hb2]
      have hassoc : (s.buffer ++ [a]) ++ rest = s.buffer ++ a :: rest := by simp
      rw [hassoc]

/-- Claim C2: for an integer retention capacity C ≥ 1, after any sequence of N
segment arrivals handled while buffering from an empty store, the store holds
exactly min(N, C) segments: the most recent min(N, C) arrivals, in arrival
order. -/
theorem store_keeps_most_recent (C : ℕ) (segs : List (List Nat))
    (s : ProtectTimeshiftBuffer) (hC : 1 ≤ C) (hbs : s.bufferSize = (C : ℚ))
    (ht : s.isTransmitting = false) (hb : s.buffer = []) :
    (runSegments s segs).buffer = segs.drop (segs.length - C) ∧
    (runSegments s segs).buffer.length = min segs.length C := by
  have h := runSegments_spec C hC segs s hbs ht (by rw [hb]; simp)
  rw [hb] at h
  simp only [List.nil_append] at h
  refine ⟨h, ?_⟩
  rw [h]
  simp only [List.length_drop]
  omega

/-- Claim C2 witness: three arrivals at capacity two keep the last two, in
order. -/
theorem store_keeps_most_recent_witness :
    1 ≤ 2 ∧ stateC2.bufferSize = ((2 : ℕ) : ℚ) ∧ stateC2.isTransmitting = false ∧
    stateC2.buffer = [] ∧
    ((runSegments stateC2 [[1], [2], [3]]).buffer =
        [[1], [2], [3]].drop ([[1], [2], [3]].length - 2) ∧
      (runSegments stateC2 [[1], [2], [3]]).buffer.length = min [[1], [2], [3]].length 2) :=
  ⟨by decide, rfl, rfl, rfl,
    store_keeps_most_recent 2 [[1], [2], [3]] stateC2 (by decide) rfl rfl rfl⟩
